import Mathlib

/-!
Verification of the storyweaver-ai pipeline against its design spec.

The development shallowly embeds the Python source:

- Python strings are lists of characters (`PyStr`); slicing `s[:n]` is
  `List.take n`.
- Python dictionaries with a fixed key set become structures of `Option`
  fields (a `none` field models an absent key).
- Fallible remote calls (the OpenAI completion backend, the Notion pages
  API) are passed in as functions returning `Except`; a Python `raise`
  is an `Except.error` result and a `return` is `Except.ok`.
- `print` calls are logging only and are dropped.
-/

namespace StoryWeaver

/-- Python strings, modelled as lists of characters. -/
abbrev PyStr := List Char

/-! ## utils/notion_client.py : NotionStoryManager -/

/-- Embeds `NotionStoryManager._truncate_text` (src/utils/notion_client.py
lines 33-46).  The source gives `max_length` the default value 1900; callers
here pass 1900 explicitly. -/
def truncate_text (text : PyStr) (max_length : Nat) : PyStr :=
  if text.length ≤ max_length then text
  else text.take (max_length - 3) ++ "...".toList

/-- Story data dictionary passed to the persistence adapter; each field
models the presence or absence of the corresponding key in the Python
`story_data` dict (src/utils/notion_client.py). -/
structure StoryData where
  prompt : Option PyStr
  setting : Option PyStr
  characters : Option PyStr
  conflict : Option PyStr
  resolution : Option PyStr
  ideas : Option PyStr
  story : Option PyStr
deriving DecidableEq

/-- Notion page property payloads: a title text, a select name, or a
rich_text content, mirroring the JSON shapes built by the adapter. -/
inductive PropValue where
  | title (content : PyStr)
  | select (name : PyStr)
  | rich_text (content : PyStr)
deriving DecidableEq

/-- Notion page body blocks built by create_story_page. -/
inductive Block where
  | heading_1 (content : PyStr)
  | paragraph (content : PyStr)
deriving DecidableEq

/-- Embeds the `properties` dict built inside
`NotionStoryManager.create_story_page` (src/utils/notion_client.py lines
60-118): Title from `story_data.get("prompt", "Untitled Story")[:100]`,
Status fixed to the select value Generated, then one rich_text entry per
present optional field, each passed through `_truncate_text`. -/
def create_story_page_properties (story_data : StoryData) : List (String × PropValue) :=
  ("Title", PropValue.title ((story_data.prompt.getD "Untitled Story".toList).take 100)) ::
  ("Status", PropValue.select "Generated".toList) ::
  ((match story_data.setting with
    | some s => [("Setting", PropValue.rich_text (truncate_text s 1900))]
    | none => []) ++
   (match story_data.characters with
    | some s => [("Characters", PropValue.rich_text (truncate_text s 1900))]
    | none => []) ++
   (match story_data.conflict with
    | some s => [("Conflict", PropValue.rich_text (truncate_text s 1900))]
    | none => []) ++
   (match story_data.resolution with
    | some s => [("Resolution", PropValue.rich_text (truncate_text s 1900))]
    | none => []))

/-- Embeds the `children` block list built inside
`NotionStoryManager.create_story_page` (src/utils/notion_client.py lines
124-186): a Generated Ideas heading, a truncated ideas paragraph when the
ideas key is present and non-empty, then a Complete Story heading and a
truncated story paragraph (the story text defaulting to empty). -/
def create_story_page_children (story_data : StoryData) : List Block :=
  Block.heading_1 "Generated Ideas".toList ::
  ((match story_data.ideas with
    | some i => if i ≠ [] then [Block.paragraph (truncate_text i 1900)] else []
    | none => []) ++
   [Block.heading_1 "Complete Story".toList,
    Block.paragraph (truncate_text (story_data.story.getD []) 1900)])

/-- Error raised by the Notion client library (APIResponseError or any
other exception from the pages call), carrying its message. -/
structure NotionError where
  message : String
deriving DecidableEq

/-- Notion page record returned by the pages API, already normalized to a
record (the source duck-types the response into a dict; responses are
modelled as records directly, so that normalization is the identity). -/
structure PageResponse where
  id : PyStr
deriving DecidableEq

/-- Arguments the adapter passes to `client.pages.create`. -/
structure CreateArgs where
  database_id : PyStr
  properties : List (String × PropValue)
  children : List Block

/-- Embeds `NotionStoryManager.create_story_page` (src/utils/notion_client.py
lines 48-208).  The remote call `client.pages.create` is the function
argument `pages_create`; the two `except` clauses at lines 203-208 print and
then re-raise, which is modelled by returning the same `Except.error`. -/
def create_story_page (database_id : PyStr)
    (pages_create : CreateArgs → Except NotionError PageResponse)
    (story_data : StoryData) : Except NotionError PageResponse :=
  match pages_create
      { database_id := database_id,
        properties := create_story_page_properties story_data,
        children := create_story_page_children story_data } with
  | Except.ok response => Except.ok response
  | Except.error e => Except.error e

/-- Embeds the `properties` dict built inside
`NotionStoryManager.update_story_page` (src/utils/notion_client.py lines
256-282): Title from `story_data["prompt"][:100]` when present, and one
rich_text entry per present optional field.  The source passes the field
values straight through, with no `_truncate_text` call. -/
def update_story_page_properties (story_data : StoryData) : List (String × PropValue) :=
  (match story_data.prompt with
   | some p => [("Title", PropValue.title (p.take 100))]
   | none => []) ++
  (match story_data.setting with
   | some s => [("Setting", PropValue.rich_text s)]
   | none => []) ++
  (match story_data.characters with
   | some s => [("Characters", PropValue.rich_text s)]
   | none => []) ++
  (match story_data.conflict with
   | some s => [("Conflict", PropValue.rich_text s)]
   | none => []) ++
  (match story_data.resolution with
   | some s => [("Resolution", PropValue.rich_text s)]
   | none => [])

/-- Embeds `NotionStoryManager.update_story_page` (src/utils/notion_client.py
lines 242-299); `pages_update` stands for `client.pages.update` and the
except clauses re-raise as in create_story_page. -/
def update_story_page (page_id : PyStr)
    (pages_update : PyStr → List (String × PropValue) → Except NotionError PageResponse)
    (story_data : StoryData) : Except NotionError PageResponse :=
  match pages_update page_id (update_story_page_properties story_data) with
  | Except.ok response => Except.ok response
  | Except.error e => Except.error e

/-! ## agents/idea_generator_agent.py : IdeaGeneratorAgent -/

/-- Environment variables read by `IdeaGeneratorAgent.__init__`
(src/agents/idea_generator_agent.py lines 14-22); a `none` field models an
unset variable. -/
structure Env where
  OPENAI_API_TYPE : Option String
  OPENAI_API_KEY : Option String
  OPENAI_MODEL : Option String
  OPENAI_API_BASE : Option String
  OPENAI_API_VERSION : Option String
  OPENAI_DEPLOYMENT_NAME : Option String
deriving DecidableEq

/-- Python truthiness of an optional string: None and the empty string are
falsy, any other string is truthy. -/
def truthy : Option String → Bool
  | none => false
  | some s => !(s == "")

/-- Python str.lower(), modelled character by character (the source only
applies it to plain ascii configuration values such as azure). -/
def pyLower (s : String) : String :=
  String.mk (s.toList.map Char.toLower)

/-- Python str.strip(): removes leading and trailing whitespace, modelled
character by character. -/
def pyStrip (s : String) : String :=
  String.mk (((s.toList.dropWhile Char.isWhitespace).reverse.dropWhile
    Char.isWhitespace).reverse)

/-- Which client class the constructor instantiated (AzureOpenAI or
OpenAI, src/agents/idea_generator_agent.py lines 28-34). -/
inductive ClientKind where
  | azure
  | openai
deriving DecidableEq

/-- Fields of a constructed IdeaGeneratorAgent
(src/agents/idea_generator_agent.py lines 12-34). -/
structure IdeaGeneratorAgent where
  api_type : String
  api_key : Option String
  model : String
  api_base : Option String
  api_version : Option String
  deployment_name : Option String
  client : ClientKind
deriving DecidableEq

/-- Embeds `IdeaGeneratorAgent.__init__` (src/agents/idea_generator_agent.py
lines 12-34): reads configuration from the environment and raises
RuntimeError, modelled as `Except.error` with the message, when the azure
api type is selected and any of api_base, api_version, deployment_name is
missing or empty.  No backend request is involved: the constructor only
selects and stores configuration. -/
def IdeaGeneratorAgent.init (env : Env) : Except String IdeaGeneratorAgent :=
  if pyLower (env.OPENAI_API_TYPE.getD "openai") == "azure" then
    if !(truthy env.OPENAI_API_BASE && truthy env.OPENAI_API_VERSION &&
         truthy env.OPENAI_DEPLOYMENT_NAME) then
      Except.error "Missing Azure OpenAI configuration in .env"
    else
      Except.ok
        { api_type := env.OPENAI_API_TYPE.getD "openai",
          api_key := env.OPENAI_API_KEY,
          model := env.OPENAI_MODEL.getD "gpt-4o",
          api_base := env.OPENAI_API_BASE,
          api_version := env.OPENAI_API_VERSION,
          deployment_name := env.OPENAI_DEPLOYMENT_NAME,
          client := ClientKind.azure }
  else
    Except.ok
      { api_type := env.OPENAI_API_TYPE.getD "openai",
        api_key := env.OPENAI_API_KEY,
        model := env.OPENAI_MODEL.getD "gpt-4o",
        api_base := env.OPENAI_API_BASE,
        api_version := env.OPENAI_API_VERSION,
        deployment_name := env.OPENAI_DEPLOYMENT_NAME,
        client := ClientKind.openai }

/-- Python str() applied to an optional string, as in
`str(self.deployment_name)`: None prints as the string None. -/
def pyStrOfOption : Option String → String
  | none => "None"
  | some s => s

/-- Text of IDEA_GENERATOR_PROMPT_TEMPLATE (src/utils/prompts.py lines 3-19)
before the user_input placeholder. -/
def IDEA_GENERATOR_PROMPT_TEMPLATE_before : String :=
  "\nYou are a creative and imaginative story idea generator. Your task is to generate original, compelling, and concise story ideas based on the user\x27s input.\n\nUser Input: "

/-- Text of IDEA_GENERATOR_PROMPT_TEMPLATE (src/utils/prompts.py lines 3-19)
after the user_input placeholder. -/
def IDEA_GENERATOR_PROMPT_TEMPLATE_after : String :=
  "\n\nPlease generate 3-5 unique story ideas that are:\n1. Original and imaginative - avoid clichés and predictable plots\n2. Concise - each idea should be 2-3 sentences maximum\n3. Diverse in genre and tone - explore different possibilities\n4. Specific enough to inspire a writer but open-ended enough to allow creative development\n\nFormat each idea as a numbered list with a brief title and description.\nExample:\n1. \"The Memory Collector\" - A woman discovers she can extract and store other people\x27s memories in glass jars. When a mysterious client requests a specific childhood memory, she uncovers a conspiracy.\n\nBe bold, creative, and surprising in your ideas!\n"

/-- Embeds `IDEA_GENERATOR_PROMPT_TEMPLATE.format(user_input=prompt)`
(src/agents/idea_generator_agent.py lines 46 and 86). -/
def format_idea_prompt (user_input : String) : String :=
  IDEA_GENERATOR_PROMPT_TEMPLATE_before ++ user_input ++ IDEA_GENERATOR_PROMPT_TEMPLATE_after

/-- One chat message of the completion request. -/
structure ChatMessage where
  role : String
  content : String
deriving DecidableEq

/-- Parameters of one `client.chat.completions.create` call; the
temperature 0.9 is recorded in tenths to stay in exact arithmetic. -/
structure ChatRequest where
  model : String
  messages : List ChatMessage
  max_tokens : Nat
  temperature_tenths : Nat
deriving DecidableEq

/-- Message part of one returned completion choice; content may be None. -/
structure ResponseMessage where
  content : Option String
deriving DecidableEq

/-- One returned completion choice. -/
structure Choice where
  message : ResponseMessage
deriving DecidableEq

/-- Completion backend response: a list of choices. -/
structure ChatResponse where
  choices : List Choice
deriving DecidableEq

/-- Exception raised by the backend call, carrying its str() message. -/
structure PyError where
  message : String
deriving DecidableEq

/-- The state delta dict returned by the idea stage. -/
structure IdeaDelta where
  ideas : String
deriving DecidableEq

/-- Embeds the Python expression `content.strip() if content else ""`
(src/agents/idea_generator_agent.py lines 67 and 107). -/
def strip_if_truthy : Option String → String
  | none => ""
  | some s => if s == "" then "" else pyStrip s

/-- Request built by `generate_idea_sync` (src/agents/idea_generator_agent.py
lines 50-63): the azure branch sends `str(deployment_name)` as model, the
other branch sends the configured model; both send one user message with the
formatted prompt, max_tokens 800 and temperature 0.9. -/
def idea_request_sync (agent : IdeaGeneratorAgent) (formatted_prompt : String) : ChatRequest :=
  if pyLower agent.api_type == "azure" then
    { model := pyStrOfOption agent.deployment_name,
      messages := [{ role := "user", content := formatted_prompt }],
      max_tokens := 800,
      temperature_tenths := 9 }
  else
    { model := agent.model,
      messages := [{ role := "user", content := formatted_prompt }],
      max_tokens := 800,
      temperature_tenths := 9 }

/-- Request built by the asynchronous `generate_idea`
(src/agents/idea_generator_agent.py lines 90-103); the source duplicates the
synchronous code verbatim. -/
def idea_request_async (agent : IdeaGeneratorAgent) (formatted_prompt : String) : ChatRequest :=
  if pyLower agent.api_type == "azure" then
    { model := pyStrOfOption agent.deployment_name,
      messages := [{ role := "user", content := formatted_prompt }],
      max_tokens := 800,
      temperature_tenths := 9 }
  else
    { model := agent.model,
      messages := [{ role := "user", content := formatted_prompt }],
      max_tokens := 800,
      temperature_tenths := 9 }

/-- Embeds `IdeaGeneratorAgent.generate_idea_sync`
(src/agents/idea_generator_agent.py lines 36-74).  The backend call is the
function argument `backend`; the try block is the ok branch, with the
`response.choices[0]` IndexError on an empty choice list and any backend
exception both caught by `except Exception` and turned into the dict
`{"ideas": "Error generating ideas: <message>"}`. -/
def generate_idea_sync (agent : IdeaGeneratorAgent)
    (backend : ChatRequest → Except PyError ChatResponse)
    (prompt : String) : IdeaDelta :=
  match backend (idea_request_sync agent (format_idea_prompt prompt)) with
  | Except.error e => { ideas := "Error generating ideas: " ++ e.message }
  | Except.ok response =>
    match response.choices.head? with
    | none => { ideas := "Error generating ideas: " ++ "list index out of range" }
    | some choice => { ideas := strip_if_truthy choice.message.content }

/-- Embeds the asynchronous `IdeaGeneratorAgent.generate_idea`
(src/agents/idea_generator_agent.py lines 76-114), whose body duplicates the
synchronous version verbatim; awaiting is not observable in the embedding. -/
def generate_idea (agent : IdeaGeneratorAgent)
    (backend : ChatRequest → Except PyError ChatResponse)
    (prompt : String) : IdeaDelta :=
  match backend (idea_request_async agent (format_idea_prompt prompt)) with
  | Except.error e => { ideas := "Error generating ideas: " ++ e.message }
  | Except.ok response =>
    match response.choices.head? with
    | none => { ideas := "Error generating ideas: " ++ "list index out of range" }
    | some choice => { ideas := strip_if_truthy choice.message.content }

/-! ## Concrete sample data for witnesses and counterexamples -/

/-- Concrete input for the truncation claim: 1901 copies of the letter a. -/
def c2_input : PyStr := List.replicate 1901 'a'

/-- An agent configured for the direct openai backend. -/
def sample_agent : IdeaGeneratorAgent :=
  { api_type := "openai", api_key := some "test-key", model := "gpt-4o",
    api_base := none, api_version := none, deployment_name := none,
    client := ClientKind.openai }

/-- A story_data dict with a prompt and some optional fields present. -/
def sample_story_data : StoryData :=
  { prompt := some "A magical cat who can speak to plants".toList,
    setting := some "garden".toList, characters := none, conflict := none,
    resolution := none, ideas := some "idea one".toList,
    story := some "Once upon a time".toList }

/-- A story_data dict with every key absent. -/
def empty_story_data : StoryData :=
  { prompt := none, setting := none, characters := none, conflict := none,
    resolution := none, ideas := none, story := none }

/-- A pages.create call that always fails with an APIResponseError. -/
def c3_failing_store : CreateArgs → Except NotionError PageResponse :=
  fun _ => Except.error { message := "Notion API error" }

/-- A 1901-character setting value. -/
def long_setting : PyStr := List.replicate 1901 'a'

/-- Update input whose setting value exceeds the 1900-character limit. -/
def c4_story_data : StoryData :=
  { prompt := none, setting := some long_setting, characters := none,
    conflict := none, resolution := none, ideas := none, story := none }

/-- Environment selecting azure with deployment_name unset. -/
def c5_env : Env :=
  { OPENAI_API_TYPE := some "azure", OPENAI_API_KEY := some "test-key",
    OPENAI_MODEL := none, OPENAI_API_BASE := some "https://example.openai.azure.com",
    OPENAI_API_VERSION := some "2024-02-01", OPENAI_DEPLOYMENT_NAME := none }

/-- A backend that always raises. -/
def c1_backend : ChatRequest → Except PyError ChatResponse :=
  fun _ => Except.error { message := "connection refused" }

/-- A completion choice whose content carries surrounding whitespace. -/
def c6_choice : Choice := { message := { content := some "  hello  " } }

/-- A backend response with one choice. -/
def c6_resp : ChatResponse := { choices := [c6_choice] }

/-- A backend that always succeeds with c6_resp. -/
def c6_backend : ChatRequest → Except PyError ChatResponse :=
  fun _ => Except.ok c6_resp

/-! ## Theorems about truncation -/

theorem truncate_text_length_le (t : PyStr) :
    (truncate_text t 1900).length ≤ 1900 := by
  have h3 : ("...".toList).length = 3 := rfl
  unfold truncate_text
  split
  · omega
  · simp only [List.length_append, List.length_take, h3]
    omega

/-- Claim C2: for every string longer than 1900 characters, truncate_text at
limit 1900 returns the first 1897 characters of the input followed by the
three characters "...", a string of exactly 1900 characters whose final three
characters are "...". -/
theorem truncate_text_long (t : PyStr) (h : 1900 < t.length) :
    truncate_text t 1900 = t.take 1897 ++ "...".toList ∧
    (truncate_text t 1900).length = 1900 ∧
    (truncate_text t 1900).drop 1897 = "...".toList := by
  have hn : ¬ t.length ≤ 1900 := Nat.not_le.mpr h
  have he : truncate_text t 1900 = t.take 1897 ++ "...".toList := by
    simp [truncate_text, hn]
  have hlen : (t.take 1897).length = 1897 := by
    rw [List.length_take]
    omega
  refine ⟨he, ?_, ?_⟩
  · rw [he, List.length_append, hlen]
    rfl
  · rw [he, List.drop_left' hlen]

/-- Witness for claim C2 at a concrete 1901-character input. -/
theorem truncate_text_long_witness :
    1900 < c2_input.length ∧
    truncate_text c2_input 1900 = c2_input.take 1897 ++ "...".toList ∧
    (truncate_text c2_input 1900).length = 1900 ∧
    (truncate_text c2_input 1900).drop 1897 = "...".toList := by
  have h : 1900 < c2_input.length := by
    rw [c2_input, List.length_replicate]
    omega
  exact ⟨h, truncate_text_long c2_input h⟩

/-- Claim C8: truncation at limit 1900 is idempotent; truncating an
already-truncated string yields the identical string, with no double
ellipsis. -/
theorem truncate_text_idempotent (t : PyStr) :
    truncate_text (truncate_text t 1900) 1900 = truncate_text t 1900 := by
  have h := truncate_text_length_le t
  conv_lhs => rw [truncate_text]
  exact if_pos h

/-! ## Theorems about the idea stage -/

/-- Claim C1: when the backend completion call raises any error, both
generate_idea_sync and generate_idea return a state delta whose ideas field
is the string beginning with the error prefix followed by the message,
rather than propagating the exception (the embedding returns a plain
IdeaDelta, so no exception can escape). -/
theorem idea_stage_error_is_data (agent : IdeaGeneratorAgent) (prompt : String)
    (backend : ChatRequest → Except PyError ChatResponse) (e : PyError)
    (h : ∀ req, backend req = Except.error e) :
    generate_idea_sync agent backend prompt
      = { ideas := "Error generating ideas: " ++ e.message } ∧
    generate_idea agent backend prompt
      = { ideas := "Error generating ideas: " ++ e.message } := by
  constructor <;> simp [generate_idea_sync, generate_idea, h]

/-- Witness for claim C1: a backend that always raises a connection error
yields the corresponding error string in the ideas field of both entry
points. -/
theorem idea_stage_error_is_data_witness :
    generate_idea_sync sample_agent c1_backend "A magical cat"
      = { ideas := "Error generating ideas: " ++ "connection refused" } ∧
    generate_idea sample_agent c1_backend "A magical cat"
      = { ideas := "Error generating ideas: " ++ "connection refused" } :=
  idea_stage_error_is_data sample_agent "A magical cat" c1_backend
    { message := "connection refused" } (fun _ => rfl)

theorem strip_if_truthy_eq_trim (c : Option String) :
    strip_if_truthy c = pyStrip (c.getD "") := by
  cases c with
  | none => rfl
  | some s =>
    by_cases hs : s = ""
    · subst hs; rfl
    · simp [strip_if_truthy, hs]

/-- Claim C6: on a successful backend call, generate_idea_sync returns the
trimmed text of the first returned completion choice as the ideas value, and
when that content is the empty string or None the result is the empty-string
success value, not an error string. -/
theorem generate_idea_sync_success (agent : IdeaGeneratorAgent) (prompt : String)
    (backend : ChatRequest → Except PyError ChatResponse)
    (resp : ChatResponse) (choice : Choice)
    (hb : ∀ req, backend req = Except.ok resp)
    (hc : resp.choices.head? = some choice) :
    generate_idea_sync agent backend prompt
      = { ideas := pyStrip (choice.message.content.getD "") } ∧
    (choice.message.content = some "" →
      generate_idea_sync agent backend prompt = { ideas := "" }) ∧
    (choice.message.content = none →
      generate_idea_sync agent backend prompt = { ideas := "" }) := by
  have h1 : generate_idea_sync agent backend prompt
      = { ideas := strip_if_truthy choice.message.content } := by
    simp [generate_idea_sync, hb, hc]

  refine ⟨?_, ?_, ?_⟩
  · rw [h1, strip_if_truthy_eq_trim]
  · intro hcc
    rw [h1, hcc]
    rfl
  · intro hcc
    rw [h1, hcc]
    rfl

/-- Witness for claim C6: a successful backend call whose single choice has
content with surrounding whitespace yields the trimmed content. -/
theorem generate_idea_sync_success_witness :
    generate_idea_sync sample_agent c6_backend "A magical cat"
      = { ideas := "hello" } := by
  have h := (generate_idea_sync_success sample_agent "A magical cat" c6_backend
    c6_resp c6_choice (fun _ => rfl) rfl).1
  exact h.trans (by decide)

/-- Claim C7: the synchronous and asynchronous entry points return equal
results for every agent, backend behaviour and prompt, and build identical
requests (same model, messages, max_tokens and temperature). -/
theorem generate_idea_async_sync_agree (agent : IdeaGeneratorAgent)
    (backend : ChatRequest → Except PyError ChatResponse) (prompt : String) :
    generate_idea agent backend prompt = generate_idea_sync agent backend prompt ∧
    idea_request_async agent (format_idea_prompt prompt)
      = idea_request_sync agent (format_idea_prompt prompt) :=
  ⟨rfl, rfl⟩

/-- Claim C5: construction with the azure api type and any of api_base,
api_version, deployment_name unset fails with the RuntimeError message, in
particular when deployment_name alone is missing; the constructor involves
no backend request. -/
theorem init_azure_missing_config (env : Env)
    (hty : env.OPENAI_API_TYPE = some "azure")
    (hmiss : env.OPENAI_API_BASE = none ∨ env.OPENAI_API_VERSION = none ∨
             env.OPENAI_DEPLOYMENT_NAME = none) :
    IdeaGeneratorAgent.init env
      = Except.error "Missing Azure OpenAI configuration in .env" := by
  have hlow : pyLower "azure" = "azure" := rfl
  rcases hmiss with h | h | h <;>
    simp [IdeaGeneratorAgent.init, hty, h, truthy, hlow]

/-- Witness for claim C5: azure selected, api_base and api_version present,
deployment_name unset. -/
theorem init_azure_missing_config_witness :
    IdeaGeneratorAgent.init c5_env
      = Except.error "Missing Azure OpenAI configuration in .env" :=
  init_azure_missing_config c5_env rfl (Or.inr (Or.inr rfl))

/-! ## Theorems about the persistence adapter -/

/-- Claim C9: create_story_page sets the Title property to the first 100
characters of the prompt (falling back to a default when the prompt key is
absent), and that title never exceeds 100 characters. -/
theorem create_story_page_title (sd : StoryData) :
    List.lookup "Title" (create_story_page_properties sd)
      = some (PropValue.title ((sd.prompt.getD "Untitled Story".toList).take 100)) ∧
    ((sd.prompt.getD "Untitled Story".toList).take 100).length ≤ 100 ∧
    ∀ p, sd.prompt = some p →
      List.lookup "Title" (create_story_page_properties sd)
        = some (PropValue.title (p.take 100)) := by
  have hl : List.lookup "Title" (create_story_page_properties sd)
      = some (PropValue.title ((sd.prompt.getD "Untitled Story".toList).take 100)) := by
    simp [create_story_page_properties, List.lookup]
  refine ⟨hl, ?_, ?_⟩
  · rw [List.length_take]
    exact Nat.min_le_left _ _
  · intro p hp
    rw [hl, hp]
    rfl

/-- Witness for claim C9 at a concrete story_data whose prompt is present. -/
theorem create_story_page_title_witness :
    List.lookup "Title" (create_story_page_properties sample_story_data)
      = some (PropValue.title (("A magical cat who can speak to plants".toList).take 100)) :=
  (create_story_page_title sample_story_data).2.2
    "A magical cat who can speak to plants".toList rfl

/-- Claim C10: every page created by create_story_page has its Status
property set to the select value Generated, for every input story_data;
it is never Draft or Published. -/
theorem create_story_page_status_generated (sd : StoryData) :
    List.lookup "Status" (create_story_page_properties sd)
      = some (PropValue.select "Generated".toList) ∧
    List.lookup "Status" (create_story_page_properties sd)
      ≠ some (PropValue.select "Draft".toList) ∧
    List.lookup "Status" (create_story_page_properties sd)
      ≠ some (PropValue.select "Published".toList) := by
  have hb : ("Status" == "Title") = false := rfl
  have hl : List.lookup "Status" (create_story_page_properties sd)
      = some (PropValue.select "Generated".toList) := by
    simp [create_story_page_properties, List.lookup, hb]
  refine ⟨hl, ?_, ?_⟩ <;> rw [hl] <;> decide

/-- Counterexample for claim C3: at a concrete input on which the remote
store call fails, create_story_page propagates the failure (the except
clauses at src/utils/notion_client.py lines 203-208 re-raise), instead of
returning a result recording the absence of a page identifier. -/
theorem create_story_page_raises_on_store_failure :
    create_story_page "db1".toList c3_failing_store sample_story_data
      = Except.error { message := "Notion API error" } := rfl

/-- Claim C3 as amended: when every remote store call fails, create_story_page
re-raises exactly the store error to its caller (it does not swallow it, nor
return a page); the story_data argument itself is untouched, so prior stage
results survive, and any recording of the absent page identifier is done by
the caller at the pipeline boundary. -/
theorem create_story_page_propagates_error (database_id : PyStr)
    (pages_create : CreateArgs → Except NotionError PageResponse)
    (story_data : StoryData) (e : NotionError)
    (h : ∀ args, pages_create args = Except.error e) :
    create_story_page database_id pages_create story_data = Except.error e := by
  simp [create_story_page, h]

/-- Witness for the amended claim C3 at a concrete failing store. -/
theorem create_story_page_propagates_error_witness :
    create_story_page "db2".toList c3_failing_store empty_story_data
      = Except.error { message := "Notion API error" } :=
  create_story_page_propagates_error "db2".toList c3_failing_store
    empty_story_data { message := "Notion API error" } (fun _ => rfl)

/-- Claim C4, failing input: update_story_page submits a 1901-character
Setting value unchanged, with no truncation and no trailing ellipsis, so the
adapter does submit a text field longer than 1900 characters; the source at
src/utils/notion_client.py lines 264-282 never calls _truncate_text. -/
theorem update_story_page_submits_untruncated :
    List.lookup "Setting" (update_story_page_properties c4_story_data)
      = some (PropValue.rich_text long_setting) ∧
    1900 < long_setting.length := by
  constructor
  · rfl
  · rw [long_setting, List.length_replicate]
    omega

end StoryWeaver
